import Mathlib

/-!
Shallow embedding of the CA Manager subsystem of `pkg/server/ca/manager.go`
(SPIRE server). Time instants are modelled as `Int` (seconds); Go's
`time.Time.After` is strict `<` on the instant, and Go's `time.Duration`
division by an integer constant truncates toward zero, which is `Int.tdiv`.
Opaque cryptographic values (signers, public keys) are modelled as `Nat`
identifiers compared for equality, matching `publicKeyEqual`.
-/

namespace Spire



/-- `a.After(b)` in Go: strict comparison. -/
def timeAfter (a b : Int) : Bool := b < a

/-- `safetyThreshold = 24 * time.Hour`, in seconds. -/
def safetyThreshold : Int := 24 * 60 * 60

/-- A parsed X.509 certificate: the fields the manager reads. -/
structure Certificate where
  notAfter : Int
  publicKey : Nat
  deriving DecidableEq, Repr

/-- `preparationThreshold(issuedAt, notAfter)`: `notAfter.Add(-lifetime / 2)`
where `lifetime = notAfter.Sub(issuedAt)`. -/
def preparationThreshold (issuedAt notAfter : Int) : Int :=
  notAfter + Int.tdiv (-(notAfter - issuedAt)) 2

/-- `activationThreshold(issuedAt, notAfter)`: `notAfter.Add(-lifetime / 6)`
where `lifetime = notAfter.Sub(issuedAt)`. -/
def activationThreshold (issuedAt notAfter : Int) : Int :=
  notAfter + Int.tdiv (-(notAfter - issuedAt)) 6

/-- `X509CA`: signer handle, certificate chain, upstream-PKI flag. -/
structure X509CA where
  signer : Nat
  chain : List Certificate
  isIntermediate : Bool
  deriving DecidableEq, Repr

/-- `JWTKey`: signer handle, key id, absolute expiration. -/
structure JWTKey where
  signer : Nat
  kid : String
  notAfter : Int
  deriving DecidableEq, Repr

/-- `Chain[0]` of an `X509CA`. The chain is non-empty on every code path that
reads it (journal loading rejects empty chains; preparation produces at least
one certificate); the default is never reached there. -/
def chainHead (ca : X509CA) : Certificate :=
  ca.chain.headD { notAfter := 0, publicKey := 0 }

/-- `x509CASlot`: a named holder for one generation of X509 CA material. -/
structure x509CASlot where
  id : String
  issuedAt : Int
  x509CA : Option X509CA
  deriving DecidableEq, Repr

def newX509CASlot (id : String) : x509CASlot :=
  { id := id, issuedAt := 0, x509CA := none }

def x509CASlot.IsEmpty (s : x509CASlot) : Bool := s.x509CA.isNone

def x509CASlot.Reset (s : x509CASlot) : x509CASlot := { s with x509CA := none }

/-- `s.x509CA != nil && now.After(preparationThreshold(s.issuedAt, s.x509CA.Chain[0].NotAfter))`. -/
def x509CASlot.ShouldPrepareNext (s : x509CASlot) (now : Int) : Bool :=
  match s.x509CA with
  | none => false
  | some ca => timeAfter now (preparationThreshold s.issuedAt (chainHead ca).notAfter)

/-- `s.x509CA != nil && now.After(activationThreshold(s.issuedAt, s.x509CA.Chain[0].NotAfter))`. -/
def x509CASlot.ShouldActivateNext (s : x509CASlot) (now : Int) : Bool :=
  match s.x509CA with
  | none => false
  | some ca => timeAfter now (activationThreshold s.issuedAt (chainHead ca).notAfter)

/-- `jwtKeySlot`: a named holder for one generation of JWT key material. -/
structure jwtKeySlot where
  id : String
  issuedAt : Int
  jwtKey : Option JWTKey
  deriving DecidableEq, Repr

def newJWTKeySlot (id : String) : jwtKeySlot :=
  { id := id, issuedAt := 0, jwtKey := none }

def jwtKeySlot.IsEmpty (s : jwtKeySlot) : Bool := s.jwtKey.isNone

def jwtKeySlot.Reset (s : jwtKeySlot) : jwtKeySlot := { s with jwtKey := none }

/-- `s.jwtKey == nil || now.After(preparationThreshold(s.issuedAt, s.jwtKey.NotAfter))`. -/
def jwtKeySlot.ShouldPrepareNext (s : jwtKeySlot) (now : Int) : Bool :=
  match s.jwtKey with
  | none => true
  | some k => timeAfter now (preparationThreshold s.issuedAt k.notAfter)

/-- `s.jwtKey == nil || now.After(activationThreshold(s.issuedAt, s.jwtKey.NotAfter))`. -/
def jwtKeySlot.ShouldActivateNext (s : jwtKeySlot) (now : Int) : Bool :=
  match s.jwtKey with
  | none => true
  | some k => timeAfter now (activationThreshold s.issuedAt k.notAfter)

def otherSlotID (id : String) : String :=
  if id = "A" then "B" else "A"

/-- A bundle root CA as stored: the certificate chain parsed from `DerBytes`. -/
structure RootCA where
  chain : List Certificate
  deriving DecidableEq, Repr

/-- `common.PublicKey`: a JWT signing key in the trust bundle. -/
structure CommonPublicKey where
  kid : String
  notAfter : Int
  deriving DecidableEq, Repr

/-- `common.Bundle` as used by `pruneBundle`. -/
structure Bundle where
  trustDomainId : String
  rootCas : List RootCA
  jwtSigningKeys : List CommonPublicKey
  deriving DecidableEq, Repr

/-- Keep predicate for a root CA in `pruneBundle`: the chain is kept unless
some certificate fails `cert.NotAfter.After(now)` against the cutoff
(the loop labelled `pruneRootCA` throws the whole chain out on the first
such certificate). -/
def rootCAKeep (cutoff : Int) (r : RootCA) : Bool :=
  r.chain.all (fun c => timeAfter c.notAfter cutoff)

/-- Keep predicate for a JWT signing key in `pruneBundle`:
`notAfter.After(now)` against the cutoff. -/
def jwtSigningKeyKeep (cutoff : Int) (k : CommonPublicKey) : Bool :=
  timeAfter k.notAfter cutoff

/-- Outcome of one `pruneBundle` pass over a fetched (non-nil) bundle.
`err` is the early return without calling `UpdateBundle`; `unchanged` is the
nil return with `changed == false` (no `UpdateBundle`); `updated` carries
the bundle passed to `UpdateBundle`. -/
inductive PruneOutcome where
  | err (msg : String)
  | unchanged
  | updated (b : Bundle)
  deriving DecidableEq, Repr

/-- `pruneBundle` on a fetched bundle. `now` here is the clock reading;
the code compares against `m.c.Clock.Now().Add(-safetyThreshold)`. -/
def pruneBundle (now : Int) (oldBundle : Bundle) : PruneOutcome :=
  let cutoff := now - safetyThreshold
  let newRootCas := oldBundle.rootCas.filter (rootCAKeep cutoff)
  let newJwtSigningKeys := oldBundle.jwtSigningKeys.filter (jwtSigningKeyKeep cutoff)
  let changed : Bool :=
    (newRootCas.length != oldBundle.rootCas.length) ||
    (newJwtSigningKeys.length != oldBundle.jwtSigningKeys.length)
  if newRootCas.isEmpty then .err "would prune all certificates"
  else if newJwtSigningKeys.isEmpty then .err "would prune all JWT signing keys"
  else if changed then
    .updated { trustDomainId := oldBundle.trustDomainId
             , rootCas := newRootCas
             , jwtSigningKeys := newJwtSigningKeys }
  else .unchanged

/-! Arithmetic helper lemmas about truncated division and the thresholds. -/

theorem tdiv_mono_denom (a : Int) (h : 0 ≤ a) : Int.tdiv a 6 ≤ Int.tdiv a 2 := by
  obtain ⟨n, rfl⟩ := Int.eq_ofNat_of_zero_le h
  rw [show (6 : Int) = ((6 : Nat) : Int) from rfl, show (2 : Int) = ((2 : Nat) : Int) from rfl,
    ← Int.ofNat_tdiv, ← Int.ofNat_tdiv]
  exact Int.ofNat_le.mpr (Nat.div_le_div_left (by decide) (by decide))

theorem tdiv_two_lt_self (a : Int) (h : 1 ≤ a) : Int.tdiv a 2 < a := by
  obtain ⟨n, rfl⟩ := Int.eq_ofNat_of_zero_le (le_trans (by decide) h)
  rw [show (2 : Int) = ((2 : Nat) : Int) from rfl, ← Int.ofNat_tdiv]
  exact Int.ofNat_lt.mpr (Nat.div_lt_self (by exact_mod_cast h) (by decide))

/-- With a non-negative lifetime the preparation threshold does not come after
the activation threshold. -/
theorem preparation_le_activation (issuedAt notAfter : Int) (h : issuedAt ≤ notAfter) :
    preparationThreshold issuedAt notAfter ≤ activationThreshold issuedAt notAfter := by
  unfold preparationThreshold activationThreshold
  have hL : 0 ≤ notAfter - issuedAt := by omega
  have h2 := tdiv_mono_denom (notAfter - issuedAt) hL
  rw [Int.neg_tdiv, Int.neg_tdiv]
  omega

theorem preparationThreshold_eq (issuedAt notAfter : Int) :
    preparationThreshold issuedAt notAfter =
      notAfter - Int.tdiv (notAfter - issuedAt) 2 := by
  unfold preparationThreshold
  rw [Int.neg_tdiv]
  omega

theorem activationThreshold_eq (issuedAt notAfter : Int) :
    activationThreshold issuedAt notAfter =
      notAfter - Int.tdiv (notAfter - issuedAt) 6 := by
  unfold activationThreshold
  rw [Int.neg_tdiv]
  omega

/-- A slot freshly prepared at `now` (so `issuedAt = now`) that is past its
activation threshold is also past its preparation threshold, whatever the
certificate expiry is. -/
theorem fresh_activation_implies_preparation (now notAfter : Int)
    (h : activationThreshold now notAfter < now) :
    preparationThreshold now notAfter < now := by
  rcases le_or_lt now notAfter with hle | hlt
  · have := preparation_le_activation now notAfter hle
    omega
  · rw [preparationThreshold_eq]
    have hd : 1 ≤ now - notAfter := by omega
    have h2 := tdiv_two_lt_self (now - notAfter) hd
    have hrw : notAfter - now = -(now - notAfter) := by ring
    rw [hrw, Int.neg_tdiv]
    omega

/-- C8: for every time `now`, an empty JWT slot answers `true` to both
`ShouldPrepareNext` and `ShouldActivateNext`, while an empty X509 slot
answers `false` to both. -/
theorem empty_slot_predicate_values (idx idj : String) (tx tj now : Int) :
    jwtKeySlot.ShouldPrepareNext { id := idj, issuedAt := tj, jwtKey := none } now = true ∧
    jwtKeySlot.ShouldActivateNext { id := idj, issuedAt := tj, jwtKey := none } now = true ∧
    x509CASlot.ShouldPrepareNext { id := idx, issuedAt := tx, x509CA := none } now = false ∧
    x509CASlot.ShouldActivateNext { id := idx, issuedAt := tx, x509CA := none } now = false :=
  ⟨rfl, rfl, rfl, rfl⟩

/-- C3 (amended): for every `now` and every non-empty X509 slot whose material
satisfies `issuedAt ≤ NotAfter`, `ShouldActivateNext now = true` implies
`ShouldPrepareNext now = true`. -/
theorem x509CASlot_activate_implies_prepare (s : x509CASlot) (now : Int) (ca : X509CA)
    (hca : s.x509CA = some ca) (hlife : s.issuedAt ≤ (chainHead ca).notAfter)
    (hact : s.ShouldActivateNext now = true) :
    s.ShouldPrepareNext now = true := by
  simp only [x509CASlot.ShouldActivateNext, hca, timeAfter, decide_eq_true_eq] at hact
  simp only [x509CASlot.ShouldPrepareNext, hca, timeAfter, decide_eq_true_eq]
  have := preparation_le_activation s.issuedAt (chainHead ca).notAfter hlife
  omega

/-- The slot used to refute C3 as stated: its material has
`NotAfter = 0 < issuedAt = 12`, so the activation threshold (2) comes before
the preparation threshold (6). -/
def negLifetimeSlot : x509CASlot :=
  { id := "A", issuedAt := 12
  , x509CA := some { signer := 0, chain := [{ notAfter := 0, publicKey := 0 }], isIntermediate := false } }

/-- C3 counterexample: at `now = 4` the slot with `issuedAt = 12`,
`NotAfter = 0` reports `ShouldActivateNext = true` but
`ShouldPrepareNext = false`. -/
theorem x509CASlot_activate_without_prepare_cex :
    negLifetimeSlot.ShouldActivateNext 4 = true ∧
    negLifetimeSlot.ShouldPrepareNext 4 = false := by decide

def c3WitnessCA : X509CA :=
  { signer := 0, chain := [{ notAfter := 12, publicKey := 0 }], isIntermediate := false }

def c3WitnessSlot : x509CASlot :=
  { id := "A", issuedAt := 0, x509CA := some c3WitnessCA }

theorem x509CASlot_activate_implies_prepare_witness :
    c3WitnessSlot.x509CA = some c3WitnessCA ∧
    c3WitnessSlot.issuedAt ≤ (chainHead c3WitnessCA).notAfter ∧
    c3WitnessSlot.ShouldActivateNext 11 = true ∧
    c3WitnessSlot.ShouldPrepareNext 11 = true :=
  ⟨rfl, by decide, by decide,
    x509CASlot_activate_implies_prepare c3WitnessSlot 11 c3WitnessCA rfl (by decide) (by decide)⟩

/-- C1 (amended): when `pruneBundle` writes an updated bundle, it has removed
exactly those root CAs having at least one chain certificate whose `NotAfter`
is at or before `now - 24h`, and exactly those JWT signing keys whose
`NotAfter` is at or before `now - 24h`; the written bundle is a proper
non-empty "subset" of the input (a strict sublist in at least one component,
with both components non-empty). -/
theorem pruneBundle_updated_characterization (now : Int) (old b : Bundle)
    (h : pruneBundle now old = .updated b) :
    (∀ r ∈ old.rootCas, (r ∈ b.rootCas ↔ ∀ c ∈ r.chain, now - safetyThreshold < c.notAfter)) ∧
    (∀ k ∈ old.jwtSigningKeys, (k ∈ b.jwtSigningKeys ↔ now - safetyThreshold < k.notAfter)) ∧
    b.rootCas.Sublist old.rootCas ∧
    b.jwtSigningKeys.Sublist old.jwtSigningKeys ∧
    b.rootCas ≠ [] ∧ b.jwtSigningKeys ≠ [] ∧
    (b.rootCas.length < old.rootCas.length ∨
      b.jwtSigningKeys.length < old.jwtSigningKeys.length) := by
  simp only [pruneBundle] at h
  split_ifs at h with h1 h2 h3
  injection h with hb
  subst hb
  refine ⟨?_, ?_, List.filter_sublist _, List.filter_sublist _, ?_, ?_, ?_⟩
  · intro r hr
    simp only [List.mem_filter, rootCAKeep, List.all_eq_true, timeAfter, decide_eq_true_eq, hr,
      true_and]
  · intro k hk
    simp only [List.mem_filter, jwtSigningKeyKeep, timeAfter, decide_eq_true_eq, hk, true_and]
  · intro hemp
    exact h1 (List.isEmpty_eq_true.mpr hemp)
  · intro hemp
    exact h2 (List.isEmpty_eq_true.mpr hemp)
  · have hr := List.length_filter_le (rootCAKeep (now - safetyThreshold)) old.rootCas
    have hj := List.length_filter_le (jwtSigningKeyKeep (now - safetyThreshold))
      old.jwtSigningKeys
    rcases Bool.or_eq_true_iff.mp h3 with hc | hc
    · exact Or.inl (lt_of_le_of_ne hr (by simpa using hc))
    · exact Or.inr (lt_of_le_of_ne hj (by simpa using hc))

def c1WitnessOld : Bundle :=
  { trustDomainId := "spiffe://example.org"
  , rootCas := [{ chain := [{ notAfter := 0, publicKey := 0 }] }
               , { chain := [{ notAfter := 1000000, publicKey := 0 }] }]
  , jwtSigningKeys := [{ kid := "k2", notAfter := 1000000 }] }

def c1WitnessNew : Bundle :=
  { trustDomainId := "spiffe://example.org"
  , rootCas := [{ chain := [{ notAfter := 1000000, publicKey := 0 }] }]
  , jwtSigningKeys := [{ kid := "k2", notAfter := 1000000 }] }

theorem pruneBundle_updated_characterization_witness :
    pruneBundle 172800 c1WitnessOld = .updated c1WitnessNew ∧
    ((∀ r ∈ c1WitnessOld.rootCas,
        (r ∈ c1WitnessNew.rootCas ↔ ∀ c ∈ r.chain, 172800 - safetyThreshold < c.notAfter)) ∧
      (∀ k ∈ c1WitnessOld.jwtSigningKeys,
        (k ∈ c1WitnessNew.jwtSigningKeys ↔ 172800 - safetyThreshold < k.notAfter)) ∧
      c1WitnessNew.rootCas.Sublist c1WitnessOld.rootCas ∧
      c1WitnessNew.jwtSigningKeys.Sublist c1WitnessOld.jwtSigningKeys ∧
      c1WitnessNew.rootCas ≠ [] ∧ c1WitnessNew.jwtSigningKeys ≠ [] ∧
      (c1WitnessNew.rootCas.length < c1WitnessOld.rootCas.length ∨
        c1WitnessNew.jwtSigningKeys.length < c1WitnessOld.jwtSigningKeys.length)) :=
  ⟨by decide, pruneBundle_updated_characterization 172800 c1WitnessOld c1WitnessNew (by decide)⟩

/-- The bundle used to refute C1 as stated: the first root CA has one
certificate expired two days ago and one still far in the future, and the
first JWT key expired exactly 24 hours ago (not *more* than 24 hours). -/
def c1CexOld : Bundle :=
  { trustDomainId := "spiffe://example.org"
  , rootCas := [{ chain := [{ notAfter := 0, publicKey := 0 }
                           , { notAfter := 1000000, publicKey := 0 }] }
               , { chain := [{ notAfter := 1000000, publicKey := 0 }] }]
  , jwtSigningKeys := [{ kid := "k1", notAfter := 86400 }
                      , { kid := "k2", notAfter := 1000000 }] }

/-- C1 counterexample (at `now = 172800`, i.e. cutoff `86400`): the first root
CA is removed although one of its chain certificates is still within the
threshold (so its *entire* chain has not expired), and the JWT key whose
`NotAfter` is exactly 24 hours old — not *more* than 24 hours in the past —
is removed as well. -/
theorem pruneBundle_cex :
    pruneBundle 172800 c1CexOld =
      .updated { trustDomainId := "spiffe://example.org"
               , rootCas := [{ chain := [{ notAfter := 1000000, publicKey := 0 }] }]
               , jwtSigningKeys := [{ kid := "k2", notAfter := 1000000 }] } ∧
    (172800 - safetyThreshold < (1000000 : Int)) ∧
    ¬((86400 : Int) < 172800 - safetyThreshold) := by decide

/-- C2: if removing the expired material would leave zero root CAs or zero JWT
signing keys, `pruneBundle` returns an error and never reaches the
`UpdateBundle` call, so the persisted bundle is unchanged. -/
theorem pruneBundle_refuses_emptying (now : Int) (old : Bundle)
    (h : old.rootCas.filter (rootCAKeep (now - safetyThreshold)) = [] ∨
         old.jwtSigningKeys.filter (jwtSigningKeyKeep (now - safetyThreshold)) = []) :
    (pruneBundle now old = .err "would prune all certificates" ∨
      pruneBundle now old = .err "would prune all JWT signing keys") ∧
    ∀ b, pruneBundle now old ≠ .updated b := by
  simp only [pruneBundle]
  split_ifs with h1 h2 h3
  · exact ⟨Or.inl rfl, fun b => by simp⟩
  · exact ⟨Or.inr rfl, fun b => by simp⟩
  all_goals
    exfalso
    rcases h with h | h
    · exact h1 (by rw [h]; rfl)
    · exact h2 (by rw [h]; rfl)

def c2WitnessOld : Bundle :=
  { trustDomainId := "spiffe://example.org"
  , rootCas := [{ chain := [{ notAfter := 0, publicKey := 0 }] }]
  , jwtSigningKeys := [{ kid := "k1", notAfter := 1000000 }] }

theorem pruneBundle_refuses_emptying_witness :
    (c2WitnessOld.rootCas.filter (rootCAKeep (172800 - safetyThreshold)) = [] ∨
      c2WitnessOld.jwtSigningKeys.filter (jwtSigningKeyKeep (172800 - safetyThreshold)) = []) ∧
    ((pruneBundle 172800 c2WitnessOld = .err "would prune all certificates" ∨
       pruneBundle 172800 c2WitnessOld = .err "would prune all JWT signing keys") ∧
      ∀ b, pruneBundle 172800 c2WitnessOld ≠ .updated b) :=
  ⟨by decide, pruneBundle_refuses_emptying 172800 c2WitnessOld (by decide)⟩

/-- `upstreamca.SignedCertificate`: the current response shape, carrying a
signed chain and a separate trust bundle (already parsed; a
`ParseCertificates` failure aborts before any logic modelled here). -/
structure SignedCertificate where
  certChain : List Certificate
  bundle : List Certificate
  deriving DecidableEq, Repr

/-- `upstreamca.SubmitCSRResponse` with its certificates parsed. -/
structure SubmitCSRResponse where
  signedCertificate : Option SignedCertificate
  deprecatedCert : Certificate
  deprecatedUpstreamTrustBundle : List Certificate
  deriving DecidableEq, Repr

/-- `parseUpstreamCACSRResponse`: current shape passes both lists through;
the legacy shape fails on an empty upstream trust bundle, keeps a singleton
bundle as-is, and otherwise moves all but the last bundle certificate into
the chain, keeping only the last one (`trustBundle[len-1:]`) as the trust
bundle. -/
def parseUpstreamCACSRResponse (resp : SubmitCSRResponse) :
    Except String (List Certificate × List Certificate) :=
  match resp.signedCertificate with
  | some sc => .ok (sc.certChain, sc.bundle)
  | none =>
    let cert := resp.deprecatedCert
    let trustBundle := resp.deprecatedUpstreamTrustBundle
    let certChain := [cert]
    match trustBundle.length with
    | 0 => .error "upstream CA returned an empty trust bundle"
    | 1 => .ok (certChain, trustBundle)
    | _ + 2 =>
      .ok (certChain ++ trustBundle.dropLast, trustBundle.drop (trustBundle.length - 1))

theorem drop_length_sub_one {α : Type _} (l : List α) (x : α) (h : l.getLast? = some x) :
    l.drop (l.length - 1) = [x] := by
  induction l with
  | nil => simp at h
  | cons a t ih =>
    cases t with
    | nil =>
      simp only [List.getLast?_singleton, Option.some.injEq] at h
      simp [h]
    | cons b t2 =>
      rw [List.getLast?_cons_cons] at h
      have h1 : (a :: b :: t2).drop ((a :: b :: t2).length - 1)
          = (b :: t2).drop ((b :: t2).length - 1) := by
        simp
      rw [h1, ih h]

/-- C6: parsing a legacy upstream CA response (no `SignedCertificate`) fails
when the upstream trust bundle is empty; otherwise the returned chain is the
single certificate followed by all of the bundle except its last element,
and the returned trust bundle is the last element of the bundle alone. -/
theorem parseUpstreamCACSRResponse_legacy (resp : SubmitCSRResponse)
    (hshape : resp.signedCertificate = none) :
    (resp.deprecatedUpstreamTrustBundle = [] →
      parseUpstreamCACSRResponse resp = .error "upstream CA returned an empty trust bundle") ∧
    ∀ x, resp.deprecatedUpstreamTrustBundle.getLast? = some x →
      parseUpstreamCACSRResponse resp =
        .ok (resp.deprecatedCert :: resp.deprecatedUpstreamTrustBundle.dropLast, [x]) := by
  constructor
  · intro hb
    simp [parseUpstreamCACSRResponse, hshape, hb]
  · intro x hx
    simp only [parseUpstreamCACSRResponse, hshape]
    rcases hB : resp.deprecatedUpstreamTrustBundle with _ | ⟨c, t⟩
    · rw [hB] at hx
      simp at hx
    · rw [hB] at hx
      cases t with
      | nil =>
        simp only [List.getLast?_singleton, Option.some.injEq] at hx
        simp [hx]
      | cons c2 t2 =>
        have hd := drop_length_sub_one (c :: c2 :: t2) x hx
        simp only [List.length_cons]
        rw [show t2.length + 1 + 1 = t2.length + 2 from rfl]
        rw [show (c :: c2 :: t2).length - 1 = t2.length + 1 from by simp] at hd
        rw [show t2.length + 2 - 1 = t2.length + 1 from rfl]
        simp only [List.singleton_append, hd]

def c6Resp : SubmitCSRResponse :=
  { signedCertificate := none
  , deprecatedCert := { notAfter := 50, publicKey := 1 }
  , deprecatedUpstreamTrustBundle :=
      [{ notAfter := 60, publicKey := 2 }, { notAfter := 70, publicKey := 3 }
      , { notAfter := 80, publicKey := 4 }] }

theorem parseUpstreamCACSRResponse_legacy_witness :
    c6Resp.signedCertificate = none ∧
    c6Resp.deprecatedUpstreamTrustBundle.getLast? = some { notAfter := 80, publicKey := 4 } ∧
    parseUpstreamCACSRResponse c6Resp =
      .ok (c6Resp.deprecatedCert :: c6Resp.deprecatedUpstreamTrustBundle.dropLast,
        [{ notAfter := 80, publicKey := 4 }]) :=
  ⟨rfl, rfl,
    (parseUpstreamCACSRResponse_legacy c6Resp rfl).2 { notAfter := 80, publicKey := 4 } rfl⟩

/-- `SignX509CA`: self-sign or sign with the upstream CA.
`upstreamResp = none` models `upstreamCA == nil`; `some resp` models a
successful `SubmitCSR` RPC answering `resp` (an RPC error propagates before
any logic modelled here). `selfSigned` stands for the certificate produced by
`SelfSignServerCACertificate` in the `nil`-upstream case. When
`upstreamBundle` is false the chain is truncated to the leaf
(`caChain[:1]`, modelled by `take 1`) and that truncation is reused as the
trust bundle. -/
def SignX509CA (signer : Nat) (upstreamResp : Option SubmitCSRResponse)
    (upstreamBundle : Bool) (selfSigned : Certificate) :
    Except String (X509CA × List Certificate) :=
  match upstreamResp with
  | some resp =>
    match parseUpstreamCACSRResponse resp with
    | .error e => .error e
    | .ok (caChain, trustBundle) =>
      let isIntermediate := upstreamBundle
      if isIntermediate then
        .ok ({ signer := signer, chain := caChain, isIntermediate := isIntermediate }, trustBundle)
      else
        let caChain2 := caChain.take 1
        .ok ({ signer := signer, chain := caChain2, isIntermediate := isIntermediate }, caChain2)
  | none =>
    let caChain := [selfSigned]
    .ok ({ signer := signer, chain := caChain, isIntermediate := false }, caChain)

/-- C7: when upstream signing succeeds and `UpstreamBundle` is false,
`SignX509CA` truncates the returned chain to its leaf certificate, uses that
leaf alone as the trust bundle to append, and sets `IsIntermediate` to
false. -/
theorem SignX509CA_upstream_without_bundle (signer : Nat) (resp : SubmitCSRResponse)
    (selfSigned c : Certificate) (rest tb : List Certificate)
    (h : parseUpstreamCACSRResponse resp = .ok (c :: rest, tb)) :
    SignX509CA signer (some resp) false selfSigned =
      .ok ({ signer := signer, chain := [c], isIntermediate := false }, [c]) := by
  simp [SignX509CA, h]

theorem SignX509CA_upstream_without_bundle_witness :
    parseUpstreamCACSRResponse c6Resp =
      .ok ({ notAfter := 50, publicKey := 1 }
            :: [{ notAfter := 60, publicKey := 2 }, { notAfter := 70, publicKey := 3 }],
        [{ notAfter := 80, publicKey := 4 }]) ∧
    SignX509CA 9 (some c6Resp) false { notAfter := 0, publicKey := 0 } =
      .ok ({ signer := 9, chain := [{ notAfter := 50, publicKey := 1 }]
           , isIntermediate := false }, [{ notAfter := 50, publicKey := 1 }]) :=
  ⟨rfl,
    SignX509CA_upstream_without_bundle 9 c6Resp { notAfter := 0, publicKey := 0 }
      { notAfter := 50, publicKey := 1 }
      [{ notAfter := 60, publicKey := 2 }, { notAfter := 70, publicKey := 3 }]
      [{ notAfter := 80, publicKey := 4 }] rfl⟩

/-- `x509CAKmKeyId`: `x509-CA-<id>`. -/
def x509CAKmKeyId (id : String) : String := "x509-CA-" ++ id

/-- `jwtKeyKmKeyId`: `JWT-Signer-<id>`. -/
def jwtKeyKmKeyId (id : String) : String := "JWT-Signer-" ++ id

/-- A journal `X509CAEntry`, with its chain already parsed (an unparseable
chain is fatal to `Initialize`, so no state results from it). -/
structure X509CAEntry where
  slotId : String
  issuedAt : Int
  chain : List Certificate
  isIntermediate : Bool
  deriving DecidableEq, Repr

/-- A journal `JWTKeyEntry`, with its PKIX public key already parsed. -/
structure JWTKeyEntry where
  slotId : String
  issuedAt : Int
  notAfter : Int
  kid : String
  publicKey : Nat
  deriving DecidableEq, Repr

/-- `loadX509CASlotFromEntry` composed with the `tryLoad` wrapper: `none` is a
logged-and-skipped unusable entry (no slot id, empty chain, no key manager
key, or public-key mismatch). The key manager is abstracted as a map `km`
from key id to the stored public key (`GetPublicKey`); fatal error paths
(parse or RPC failures) abort `Initialize` and are outside this function. -/
def loadX509CASlotFromEntry (km : String → Option Nat) (entry : X509CAEntry) :
    Option x509CASlot :=
  if entry.slotId = "" then none
  else if entry.chain.isEmpty then none
  else
    match km (x509CAKmKeyId entry.slotId) with
    | none => none
    | some pk =>
      if (entry.chain.headD { notAfter := 0, publicKey := 0 }).publicKey = pk then
        some { id := entry.slotId, issuedAt := entry.issuedAt
             , x509CA := some { signer := pk, chain := entry.chain
                              , isIntermediate := entry.isIntermediate } }
      else none

/-- `loadJWTKeySlotFromEntry` composed with its `tryLoad` wrapper. -/
def loadJWTKeySlotFromEntry (km : String → Option Nat) (entry : JWTKeyEntry) :
    Option jwtKeySlot :=
  if entry.slotId = "" then none
  else
    match km (jwtKeyKmKeyId entry.slotId) with
    | none => none
    | some pk =>
      if entry.publicKey = pk then
        some { id := entry.slotId, issuedAt := entry.issuedAt
             , jwtKey := some { signer := pk, kid := entry.kid
                              , notAfter := entry.notAfter } }
      else none

/-- The X509 half of `loadJournal`: the last journal entry is tried as
`next`; only when it is usable is the second-to-last tried as `current`;
then the switch statement normalizes the pair. -/
def loadX509Slots (km : String → Option Nat) (entries : List X509CAEntry) :
    x509CASlot × x509CASlot :=
  let nextSlot : Option x509CASlot :=
    match entries.getLast? with
    | some e => loadX509CASlotFromEntry km e
    | none => none
  let currentSlot : Option x509CASlot :=
    match nextSlot, entries.dropLast.getLast? with
    | some _, some e => loadX509CASlotFromEntry km e
    | _, _ => none
  match currentSlot, nextSlot with
  | some c, some n => (c, n)
  | none, some n => (n, newX509CASlot (otherSlotID n.id))
  | _, none => (newX509CASlot "A", newX509CASlot "B")

/-- The JWT half of `loadJournal`. -/
def loadJWTSlots (km : String → Option Nat) (entries : List JWTKeyEntry) :
    jwtKeySlot × jwtKeySlot :=
  let nextSlot : Option jwtKeySlot :=
    match entries.getLast? with
    | some e => loadJWTKeySlotFromEntry km e
    | none => none
  let currentSlot : Option jwtKeySlot :=
    match nextSlot, entries.dropLast.getLast? with
    | some _, some e => loadJWTKeySlotFromEntry km e
    | _, _ => none
  match currentSlot, nextSlot with
  | some c, some n => (c, n)
  | none, some n => (n, newJWTKeySlot (otherSlotID n.id))
  | _, none => (newJWTKeySlot "A", newJWTKeySlot "B")

/-- The manager's slot state. -/
structure ManagerState where
  currentX509CA : x509CASlot
  nextX509CA : x509CASlot
  currentJWTKey : jwtKeySlot
  nextJWTKey : jwtKeySlot
  deriving DecidableEq, Repr

/-- The slot-reconstruction part of `loadJournal`. -/
def loadJournalState (km : String → Option Nat) (xEntries : List X509CAEntry)
    (jEntries : List JWTKeyEntry) : ManagerState :=
  { currentX509CA := (loadX509Slots km xEntries).1
  , nextX509CA := (loadX509Slots km xEntries).2
  , currentJWTKey := (loadJWTSlots km jEntries).1
  , nextJWTKey := (loadJWTSlots km jEntries).2 }

/-- Oracle for one `prepareX509CA` call: whether the backend calls succeed
and, on success, the signed chain produced by `SignX509CA` (with an upstream
CA its certificates, including `Chain[0].NotAfter`, are chosen by the
upstream), the signer handle and the intermediate flag. -/
structure X509Prep where
  ok : Bool
  chain : List Certificate
  signer : Nat
  isIntermediate : Bool
  deriving DecidableEq, Repr

/-- `prepareX509CA`: resets the slot first; on success records
`issuedAt = now` and the new material, on failure the slot stays reset.
The second component is `true` when the call returned an error. -/
def prepareX509CA (o : X509Prep) (now : Int) (slot : x509CASlot) :
    x509CASlot × Bool :=
  if o.ok then
    ({ slot.Reset with
        issuedAt := now
        x509CA := some ⟨o.signer, o.chain, o.isIntermediate⟩ }, false)
  else (slot.Reset, true)

/-- Oracle for one `prepareJWTKey` call. -/
structure JWTPrep where
  ok : Bool
  kid : String
  signer : Nat
  deriving DecidableEq, Repr

/-- `prepareJWTKey`: resets the slot first; on success records
`issuedAt = now` and a key with `NotAfter = now + CATTL`. -/
def prepareJWTKey (o : JWTPrep) (cattl now : Int) (slot : jwtKeySlot) :
    jwtKeySlot × Bool :=
  if o.ok then
    ({ slot.Reset with
        issuedAt := now
        jwtKey := some ⟨o.signer, o.kid, now + cattl⟩ }, false)
  else (slot.Reset, true)

/-- Result of one kind's rotation: the two slots, the materials read by the
activation calls in order (`none` would be a nil dereference of
`x509CA.Chain[0]` in `activateX509CA`), and the returned error. -/
structure X509Rotation where
  current : x509CASlot
  next : x509CASlot
  activations : List (Option X509CA)
  err : Option String
  deriving DecidableEq, Repr

/-- The final `if` of `rotateX509CA`: when the current slot is past its
activation threshold, swap current and next, reset the displaced slot and
activate the new current. -/
def rotateX509CAStep3 (now : Int) (cur next : x509CASlot)
    (acts : List (Option X509CA)) : X509Rotation :=
  if cur.ShouldActivateNext now then
    { current := next, next := cur.Reset, activations := acts ++ [next.x509CA], err := none }
  else
    { current := cur, next := next, activations := acts, err := none }

/-- The middle `if` of `rotateX509CA`: prepare `next` when it is empty and
the current slot is past its preparation threshold; a preparation error
returns immediately. -/
def rotateX509CAStep23 (oNext : X509Prep) (now : Int) (cur next : x509CASlot)
    (acts : List (Option X509CA)) : X509Rotation :=
  if next.IsEmpty && cur.ShouldPrepareNext now then
    match prepareX509CA oNext now next with
    | (next2, true) =>
      { current := cur, next := next2, activations := acts
      , err := some "prepare next X509CA failed" }
    | (next2, false) => rotateX509CAStep3 now cur next2 acts
  else rotateX509CAStep3 now cur next acts

/-- `rotateX509CA` for one tick; `oCur` and `oNext` are the oracles for the
up to two `prepareX509CA` calls. An empty current slot is bootstrapped and
activated first; a preparation error returns immediately. -/
def rotateX509CA (oCur oNext : X509Prep) (now : Int) (cur next : x509CASlot) :
    X509Rotation :=
  if cur.IsEmpty then
    match prepareX509CA oCur now cur with
    | (cur2, true) =>
      { current := cur2, next := next, activations := []
      , err := some "prepare current X509CA failed" }
    | (cur2, false) => rotateX509CAStep23 oNext now cur2 next [cur2.x509CA]
  else rotateX509CAStep23 oNext now cur next []

/-- Result of the JWT rotation, mirroring `X509Rotation`. -/
structure JWTRotation where
  current : jwtKeySlot
  next : jwtKeySlot
  activations : List (Option JWTKey)
  err : Option String
  deriving DecidableEq, Repr

/-- The final `if` of `rotateJWTKey`. -/
def rotateJWTKeyStep3 (now : Int) (cur next : jwtKeySlot)
    (acts : List (Option JWTKey)) : JWTRotation :=
  if cur.ShouldActivateNext now then
    { current := next, next := cur.Reset, activations := acts ++ [next.jwtKey], err := none }
  else
    { current := cur, next := next, activations := acts, err := none }

/-- The middle `if` of `rotateJWTKey`. -/
def rotateJWTKeyStep23 (oNext : JWTPrep) (cattl now : Int) (cur next : jwtKeySlot)
    (acts : List (Option JWTKey)) : JWTRotation :=
  if next.IsEmpty && cur.ShouldPrepareNext now then
    match prepareJWTKey oNext cattl now next with
    | (next2, true) =>
      { current := cur, next := next2, activations := acts
      , err := some "prepare next JWT key failed" }
    | (next2, false) => rotateJWTKeyStep3 now cur next2 acts
  else rotateJWTKeyStep3 now cur next acts

/-- `rotateJWTKey` for one tick. -/
def rotateJWTKey (oCur oNext : JWTPrep) (cattl now : Int) (cur next : jwtKeySlot) :
    JWTRotation :=
  if cur.IsEmpty then
    match prepareJWTKey oCur cattl now cur with
    | (cur2, true) =>
      { current := cur2, next := next, activations := []
      , err := some "prepare current JWT key failed" }
    | (cur2, false) => rotateJWTKeyStep23 oNext cattl now cur2 next [cur2.jwtKey]
  else rotateJWTKeyStep23 oNext cattl now cur next []

/-- Per-tick oracle environment: the configured CATTL (positive after
`NewManager`) and the outcomes of the up to four prepare calls. -/
structure TickEnv where
  cattl : Int
  x509PrepCurrent : X509Prep
  x509PrepNext : X509Prep
  jwtPrepCurrent : JWTPrep
  jwtPrepNext : JWTPrep
  deriving DecidableEq, Repr

/-- `errs.Combine`: nil exactly when both errors are nil. -/
def errsCombine (a b : Option String) : Option String :=
  match a, b with
  | none, none => none
  | some x, none => some x
  | none, some y => some y
  | some x, some y => some (x ++ "; " ++ y)

/-- Result of one `rotate` tick. -/
structure TickResult where
  state : ManagerState
  x509Activations : List (Option X509CA)
  jwtActivations : List (Option JWTKey)
  err : Option String
  deriving DecidableEq, Repr

/-- `rotate`: rotates the X509 CA, then — regardless of the first outcome —
the JWT key, and combines the two errors into the tick's error. -/
def rotate (env : TickEnv) (now : Int) (st : ManagerState) : TickResult :=
  let rx := rotateX509CA env.x509PrepCurrent env.x509PrepNext now
    st.currentX509CA st.nextX509CA
  let rj := rotateJWTKey env.jwtPrepCurrent env.jwtPrepNext env.cattl now
    st.currentJWTKey st.nextJWTKey
  { state := { currentX509CA := rx.current, nextX509CA := rx.next
             , currentJWTKey := rj.current, nextJWTKey := rj.next }
  , x509Activations := rx.activations
  , jwtActivations := rj.activations
  , err := errsCombine rx.err rj.err }

/-- A sequence of rotation ticks applied to a state. -/
def applyTicks (ticks : List (TickEnv × Int)) (st : ManagerState) : ManagerState :=
  ticks.foldl (fun s t => (rotate t.1 t.2 s).state) st

theorem errsCombine_eq_none (a b : Option String) :
    errsCombine a b = none ↔ a = none ∧ b = none := by
  cases a <;> cases b <;> simp [errsCombine]

/-- C9: on a rotation tick the JWT rotation is attempted regardless of the
X509 outcome — the JWT half of the tick result is unchanged when only the
X509 oracles differ — and the tick error is nil exactly when both the X509
and the JWT rotation returned nil. -/
theorem rotate_attempts_jwt_and_combines_errors (env env2 : TickEnv) (now : Int)
    (st : ManagerState)
    (hc : env2.cattl = env.cattl)
    (h1 : env2.jwtPrepCurrent = env.jwtPrepCurrent)
    (h2 : env2.jwtPrepNext = env.jwtPrepNext) :
    ((rotate env now st).state.currentJWTKey = (rotate env2 now st).state.currentJWTKey ∧
      (rotate env now st).state.nextJWTKey = (rotate env2 now st).state.nextJWTKey ∧
      (rotate env now st).jwtActivations = (rotate env2 now st).jwtActivations) ∧
    ((rotate env now st).err = none ↔
      (rotateX509CA env.x509PrepCurrent env.x509PrepNext now
        st.currentX509CA st.nextX509CA).err = none ∧
      (rotateJWTKey env.jwtPrepCurrent env.jwtPrepNext env.cattl now
        st.currentJWTKey st.nextJWTKey).err = none) := by
  refine ⟨?_, ?_⟩
  · simp [rotate, hc, h1, h2]
  · simp only [rotate]
    exact errsCombine_eq_none _ _

def c9JwtPrep : JWTPrep := { ok := true, kid := "kid", signer := 2 }

def c9Env : TickEnv :=
  { cattl := 86400
  , x509PrepCurrent := { ok := false, chain := [], signer := 0, isIntermediate := false }
  , x509PrepNext := { ok := false, chain := [], signer := 0, isIntermediate := false }
  , jwtPrepCurrent := c9JwtPrep, jwtPrepNext := c9JwtPrep }

def c9Env2 : TickEnv :=
  { cattl := 86400
  , x509PrepCurrent :=
      { ok := true, chain := [{ notAfter := 86400, publicKey := 1 }], signer := 1
      , isIntermediate := false }
  , x509PrepNext :=
      { ok := true, chain := [{ notAfter := 86400, publicKey := 1 }], signer := 1
      , isIntermediate := false }
  , jwtPrepCurrent := c9JwtPrep, jwtPrepNext := c9JwtPrep }

def coldState : ManagerState :=
  { currentX509CA := newX509CASlot "A", nextX509CA := newX509CASlot "B"
  , currentJWTKey := newJWTKeySlot "A", nextJWTKey := newJWTKeySlot "B" }

theorem rotate_attempts_jwt_and_combines_errors_witness :
    (c9Env2.cattl = c9Env.cattl ∧ c9Env2.jwtPrepCurrent = c9Env.jwtPrepCurrent ∧
      c9Env2.jwtPrepNext = c9Env.jwtPrepNext) ∧
    (((rotate c9Env 0 coldState).state.currentJWTKey =
        (rotate c9Env2 0 coldState).state.currentJWTKey ∧
      (rotate c9Env 0 coldState).state.nextJWTKey =
        (rotate c9Env2 0 coldState).state.nextJWTKey ∧
      (rotate c9Env 0 coldState).jwtActivations =
        (rotate c9Env2 0 coldState).jwtActivations) ∧
    ((rotate c9Env 0 coldState).err = none ↔
      (rotateX509CA c9Env.x509PrepCurrent c9Env.x509PrepNext 0
        coldState.currentX509CA coldState.nextX509CA).err = none ∧
      (rotateJWTKey c9Env.jwtPrepCurrent c9Env.jwtPrepNext c9Env.cattl 0
        coldState.currentJWTKey coldState.nextJWTKey).err = none)) :=
  ⟨⟨rfl, rfl, rfl⟩,
    rotate_attempts_jwt_and_combines_errors c9Env c9Env2 0 coldState rfl rfl rfl⟩

/-- C10: when the last journal entry of a kind is unusable (no slot id, empty
chain, missing key-manager key, or public-key mismatch), the second-to-last
entry of that kind is never consulted and both slots of the kind come up
empty with ids A and B — whatever the earlier entries contain. -/
theorem load_last_unusable_gives_empty_slots (km : String → Option Nat)
    (xEntries : List X509CAEntry) (jEntries : List JWTKeyEntry)
    (ex : X509CAEntry) (ej : JWTKeyEntry)
    (hxlast : xEntries.getLast? = some ex)
    (hxbad : loadX509CASlotFromEntry km ex = none)
    (hjlast : jEntries.getLast? = some ej)
    (hjbad : loadJWTKeySlotFromEntry km ej = none) :
    loadJournalState km xEntries jEntries =
      { currentX509CA := newX509CASlot "A", nextX509CA := newX509CASlot "B"
      , currentJWTKey := newJWTKeySlot "A", nextJWTKey := newJWTKeySlot "B" } := by
  have hx : loadX509Slots km xEntries = (newX509CASlot "A", newX509CASlot "B") := by
    simp only [loadX509Slots, hxlast, hxbad]
  have hj : loadJWTSlots km jEntries = (newJWTKeySlot "A", newJWTKeySlot "B") := by
    simp only [loadJWTSlots, hjlast, hjbad]
  simp only [loadJournalState, hx, hj]

def c10Km : String → Option Nat := fun k =>
  if k = "x509-CA-B" then some 7 else if k = "JWT-Signer-B" then some 8 else none

def c10XGood : X509CAEntry :=
  { slotId := "B", issuedAt := 10, chain := [{ notAfter := 99, publicKey := 7 }]
  , isIntermediate := false }

def c10XBad : X509CAEntry :=
  { slotId := "", issuedAt := 20, chain := [{ notAfter := 99, publicKey := 7 }]
  , isIntermediate := false }

def c10JGood : JWTKeyEntry :=
  { slotId := "B", issuedAt := 10, notAfter := 99, kid := "kk", publicKey := 8 }

def c10JBad : JWTKeyEntry :=
  { slotId := "", issuedAt := 20, notAfter := 99, kid := "kk", publicKey := 8 }

theorem load_last_unusable_gives_empty_slots_witness :
    [c10XGood, c10XBad].getLast? = some c10XBad ∧
    loadX509CASlotFromEntry c10Km c10XBad = none ∧
    [c10JGood, c10JBad].getLast? = some c10JBad ∧
    loadJWTKeySlotFromEntry c10Km c10JBad = none ∧
    loadX509CASlotFromEntry c10Km c10XGood ≠ none ∧
    loadJWTKeySlotFromEntry c10Km c10JGood ≠ none ∧
    loadJournalState c10Km [c10XGood, c10XBad] [c10JGood, c10JBad] =
      { currentX509CA := newX509CASlot "A", nextX509CA := newX509CASlot "B"
      , currentJWTKey := newJWTKeySlot "A", nextJWTKey := newJWTKeySlot "B" } :=
  ⟨by decide, by decide, by decide, by decide, by decide, by decide,
    load_last_unusable_gives_empty_slots c10Km [c10XGood, c10XBad] [c10JGood, c10JBad]
      c10XBad c10JBad (by decide) (by decide) (by decide) (by decide)⟩

theorem otherSlotID_ne (id : String) : otherSlotID id ≠ id := by
  unfold otherSlotID
  split
  · rename_i h
    rw [h]
    decide
  · rename_i h
    exact fun hh => h hh.symm

theorem prepareX509CA_id (o : X509Prep) (now : Int) (slot : x509CASlot) :
    (prepareX509CA o now slot).1.id = slot.id := by
  unfold prepareX509CA x509CASlot.Reset
  split <;> rfl

theorem prepareJWTKey_id (o : JWTPrep) (cattl now : Int) (slot : jwtKeySlot) :
    (prepareJWTKey o cattl now slot).1.id = slot.id := by
  unfold prepareJWTKey jwtKeySlot.Reset
  split <;> rfl

theorem rotateX509CAStep3_ids (now : Int) (cur next : x509CASlot)
    (acts : List (Option X509CA)) :
    ((rotateX509CAStep3 now cur next acts).current.id = cur.id ∧
      (rotateX509CAStep3 now cur next acts).next.id = next.id) ∨
    ((rotateX509CAStep3 now cur next acts).current.id = next.id ∧
      (rotateX509CAStep3 now cur next acts).next.id = cur.id) := by
  unfold rotateX509CAStep3
  split
  · exact Or.inr ⟨rfl, rfl⟩
  · exact Or.inl ⟨rfl, rfl⟩

theorem rotateX509CAStep23_ids (oNext : X509Prep) (now : Int) (cur next : x509CASlot)
    (acts : List (Option X509CA)) :
    ((rotateX509CAStep23 oNext now cur next acts).current.id = cur.id ∧
      (rotateX509CAStep23 oNext now cur next acts).next.id = next.id) ∨
    ((rotateX509CAStep23 oNext now cur next acts).current.id = next.id ∧
      (rotateX509CAStep23 oNext now cur next acts).next.id = cur.id) := by
  unfold rotateX509CAStep23
  split
  · rcases hp : prepareX509CA oNext now next with ⟨next2, e⟩
    have hid : next2.id = next.id := by
      have h := prepareX509CA_id oNext now next
      rw [hp] at h
      exact h
    cases e
    · rcases rotateX509CAStep3_ids now cur next2 acts with ⟨ha, hb⟩ | ⟨ha, hb⟩
      · exact Or.inl ⟨ha, hb.trans hid⟩
      · exact Or.inr ⟨ha.trans hid, hb⟩
    · exact Or.inl ⟨rfl, hid⟩
  · exact rotateX509CAStep3_ids now cur next acts

theorem rotateX509CA_ids (oCur oNext : X509Prep) (now : Int) (cur next : x509CASlot) :
    ((rotateX509CA oCur oNext now cur next).current.id = cur.id ∧
      (rotateX509CA oCur oNext now cur next).next.id = next.id) ∨
    ((rotateX509CA oCur oNext now cur next).current.id = next.id ∧
      (rotateX509CA oCur oNext now cur next).next.id = cur.id) := by
  unfold rotateX509CA
  split
  · rcases hp : prepareX509CA oCur now cur with ⟨cur2, e⟩
    have hid : cur2.id = cur.id := by
      have h := prepareX509CA_id oCur now cur
      rw [hp] at h
      exact h
    cases e
    · rcases rotateX509CAStep23_ids oNext now cur2 next [cur2.x509CA] with ⟨ha, hb⟩ | ⟨ha, hb⟩
      · exact Or.inl ⟨ha.trans hid, hb⟩
      · exact Or.inr ⟨ha, hb.trans hid⟩
    · exact Or.inl ⟨hid, rfl⟩
  · exact rotateX509CAStep23_ids oNext now cur next []

theorem rotateJWTKeyStep3_ids (now : Int) (cur next : jwtKeySlot)
    (acts : List (Option JWTKey)) :
    ((rotateJWTKeyStep3 now cur next acts).current.id = cur.id ∧
      (rotateJWTKeyStep3 now cur next acts).next.id = next.id) ∨
    ((rotateJWTKeyStep3 now cur next acts).current.id = next.id ∧
      (rotateJWTKeyStep3 now cur next acts).next.id = cur.id) := by
  unfold rotateJWTKeyStep3
  split
  · exact Or.inr ⟨rfl, rfl⟩
  · exact Or.inl ⟨rfl, rfl⟩

theorem rotateJWTKeyStep23_ids (oNext : JWTPrep) (cattl now : Int) (cur next : jwtKeySlot)
    (acts : List (Option JWTKey)) :
    ((rotateJWTKeyStep23 oNext cattl now cur next acts).current.id = cur.id ∧
      (rotateJWTKeyStep23 oNext cattl now cur next acts).next.id = next.id) ∨
    ((rotateJWTKeyStep23 oNext cattl now cur next acts).current.id = next.id ∧
      (rotateJWTKeyStep23 oNext cattl now cur next acts).next.id = cur.id) := by
  unfold rotateJWTKeyStep23
  split
  · rcases hp : prepareJWTKey oNext cattl now next with ⟨next2, e⟩
    have hid : next2.id = next.id := by
      have h := prepareJWTKey_id oNext cattl now next
      rw [hp] at h
      exact h
    cases e
    · rcases rotateJWTKeyStep3_ids now cur next2 acts with ⟨ha, hb⟩ | ⟨ha, hb⟩
      · exact Or.inl ⟨ha, hb.trans hid⟩
      · exact Or.inr ⟨ha.trans hid, hb⟩
    · exact Or.inl ⟨rfl, hid⟩
  · exact rotateJWTKeyStep3_ids now cur next acts

theorem rotateJWTKey_ids (oCur oNext : JWTPrep) (cattl now : Int) (cur next : jwtKeySlot) :
    ((rotateJWTKey oCur oNext cattl now cur next).current.id = cur.id ∧
      (rotateJWTKey oCur oNext cattl now cur next).next.id = next.id) ∨
    ((rotateJWTKey oCur oNext cattl now cur next).current.id = next.id ∧
      (rotateJWTKey oCur oNext cattl now cur next).next.id = cur.id) := by
  unfold rotateJWTKey
  split
  · rcases hp : prepareJWTKey oCur cattl now cur with ⟨cur2, e⟩
    have hid : cur2.id = cur.id := by
      have h := prepareJWTKey_id oCur cattl now cur
      rw [hp] at h
      exact h
    cases e
    · rcases rotateJWTKeyStep23_ids oNext cattl now cur2 next [cur2.jwtKey]
        with ⟨ha, hb⟩ | ⟨ha, hb⟩
      · exact Or.inl ⟨ha.trans hid, hb⟩
      · exact Or.inr ⟨ha, hb.trans hid⟩
    · exact Or.inl ⟨hid, rfl⟩
  · exact rotateJWTKeyStep23_ids oNext cattl now cur next []

/-- Current and next have distinct ids, for both kinds. -/
def idsDistinct (st : ManagerState) : Prop :=
  st.currentX509CA.id ≠ st.nextX509CA.id ∧ st.currentJWTKey.id ≠ st.nextJWTKey.id

theorem rotate_preserves_idsDistinct (env : TickEnv) (now : Int) (st : ManagerState)
    (h : idsDistinct st) : idsDistinct ((rotate env now st).state) := by
  obtain ⟨hx, hj⟩ := h
  constructor
  · have hids := rotateX509CA_ids env.x509PrepCurrent env.x509PrepNext now
      st.currentX509CA st.nextX509CA
    simp only [rotate]
    rcases hids with ⟨ha, hb⟩ | ⟨ha, hb⟩
    · rw [ha, hb]
      exact hx
    · rw [ha, hb]
      exact fun hh => hx hh.symm
  · have hids := rotateJWTKey_ids env.jwtPrepCurrent env.jwtPrepNext env.cattl now
      st.currentJWTKey st.nextJWTKey
    simp only [rotate]
    rcases hids with ⟨ha, hb⟩ | ⟨ha, hb⟩
    · rw [ha, hb]
      exact hj
    · rw [ha, hb]
      exact fun hh => hj hh.symm

theorem applyTicks_preserves_idsDistinct (ticks : List (TickEnv × Int)) (st : ManagerState)
    (h : idsDistinct st) : idsDistinct (applyTicks ticks st) := by
  induction ticks generalizing st with
  | nil => exact h
  | cons t ts ih => exact ih ((rotate t.1 t.2 st).state) (rotate_preserves_idsDistinct t.1 t.2 st h)

theorem loadX509Slots_ids_distinct (km : String → Option Nat) (entries : List X509CAEntry)
    (h : ∀ e1 e2 c n, entries.getLast? = some e2 → entries.dropLast.getLast? = some e1 →
      loadX509CASlotFromEntry km e2 = some n → loadX509CASlotFromEntry km e1 = some c →
      c.id ≠ n.id) :
    (loadX509Slots km entries).1.id ≠ (loadX509Slots km entries).2.id := by
  unfold loadX509Slots
  rcases hlast : entries.getLast? with _ | e2
  · simp only [hlast, newX509CASlot]
    decide
  · rcases hload : loadX509CASlotFromEntry km e2 with _ | n
    · simp only [hlast, hload, newX509CASlot]
      decide
    · rcases hprev : entries.dropLast.getLast? with _ | e1
      · simp only [hlast, hload, hprev, newX509CASlot]
        exact fun hh => otherSlotID_ne n.id hh.symm
      · rcases hload1 : loadX509CASlotFromEntry km e1 with _ | c
        · simp only [hlast, hload, hprev, hload1, newX509CASlot]
          exact fun hh => otherSlotID_ne n.id hh.symm
        · simp only [hlast, hload, hprev, hload1]
          exact h e1 e2 c n hlast hprev hload hload1

theorem loadJWTSlots_ids_distinct (km : String → Option Nat) (entries : List JWTKeyEntry)
    (h : ∀ e1 e2 c n, entries.getLast? = some e2 → entries.dropLast.getLast? = some e1 →
      loadJWTKeySlotFromEntry km e2 = some n → loadJWTKeySlotFromEntry km e1 = some c →
      c.id ≠ n.id) :
    (loadJWTSlots km entries).1.id ≠ (loadJWTSlots km entries).2.id := by
  unfold loadJWTSlots
  rcases hlast : entries.getLast? with _ | e2
  · simp only [hlast, newJWTKeySlot]
    decide
  · rcases hload : loadJWTKeySlotFromEntry km e2 with _ | n
    · simp only [hlast, hload, newJWTKeySlot]
      decide
    · rcases hprev : entries.dropLast.getLast? with _ | e1
      · simp only [hlast, hload, hprev, newJWTKeySlot]
        exact fun hh => otherSlotID_ne n.id hh.symm
      · rcases hload1 : loadJWTKeySlotFromEntry km e1 with _ | c
        · simp only [hlast, hload, hprev, hload1, newJWTKeySlot]
          exact fun hh => otherSlotID_ne n.id hh.symm
        · simp only [hlast, hload, hprev, hload1]
          exact h e1 e2 c n hlast hprev hload hload1

/-- C4 (amended): through journal recovery and any sequence of rotation
ticks, current and next have distinct ids for both kinds — provided that,
per kind, whenever both of the journal's last two entries load as usable
slots, the two recorded slot ids differ (which holds for journals the
manager writes itself). A journal whose last two entries of a kind are both
usable with the same slot id defeats the invariant (see the
counterexample). -/
theorem slot_ids_distinct (km : String → Option Nat) (xEntries : List X509CAEntry)
    (jEntries : List JWTKeyEntry) (ticks : List (TickEnv × Int))
    (hx : ∀ e1 e2 c n, xEntries.getLast? = some e2 → xEntries.dropLast.getLast? = some e1 →
      loadX509CASlotFromEntry km e2 = some n → loadX509CASlotFromEntry km e1 = some c →
      c.id ≠ n.id)
    (hj : ∀ e1 e2 c n, jEntries.getLast? = some e2 → jEntries.dropLast.getLast? = some e1 →
      loadJWTKeySlotFromEntry km e2 = some n → loadJWTKeySlotFromEntry km e1 = some c →
      c.id ≠ n.id) :
    idsDistinct (applyTicks ticks (loadJournalState km xEntries jEntries)) := by
  apply applyTicks_preserves_idsDistinct
  exact ⟨loadX509Slots_ids_distinct km xEntries hx, loadJWTSlots_ids_distinct km jEntries hj⟩

def c4Km : String → Option Nat := fun k => if k = "x509-CA-A" then some 7 else none

def c4Entry : X509CAEntry :=
  { slotId := "A", issuedAt := 100, chain := [{ notAfter := 1000, publicKey := 7 }]
  , isIntermediate := false }

/-- C4 counterexample: a journal whose last two X509 entries are both usable
and both record slot id A yields — through recovery and a rotation tick — a
state whose current and next X509 slots share the id A. -/
theorem slot_ids_equal_cex :
    (applyTicks [(c9Env2, 150)] (loadJournalState c4Km [c4Entry, c4Entry] [])).currentX509CA.id =
      (applyTicks [(c9Env2, 150)] (loadJournalState c4Km [c4Entry, c4Entry] [])).nextX509CA.id := by
  decide

theorem slot_ids_distinct_witness :
    idsDistinct (applyTicks [(c9Env2, 0)] (loadJournalState c4Km [] [])) :=
  slot_ids_distinct c4Km [] [] [(c9Env2, 0)]
    (fun e1 e2 c n h1 => by simp at h1)
    (fun e1 e2 c n h1 => by simp at h1)

/-- Shared form of the threshold implication for a slot with sane lifetime. -/
theorem x509_activate_imp_prepare_of_sane (s : x509CASlot) (now : Int)
    (h : ∀ ca, s.x509CA = some ca → s.issuedAt ≤ (chainHead ca).notAfter) :
    s.ShouldActivateNext now = true → s.ShouldPrepareNext now = true := by
  intro hact
  rcases hsc : s.x509CA with _ | ca
  · simp [x509CASlot.ShouldActivateNext, hsc] at hact
  · simp only [x509CASlot.ShouldActivateNext, hsc, timeAfter, decide_eq_true_eq] at hact
    simp only [x509CASlot.ShouldPrepareNext, hsc, timeAfter, decide_eq_true_eq]
    have hle := preparation_le_activation s.issuedAt (chainHead ca).notAfter (h ca hsc)
    omega

/-- A slot freshly prepared at `now` satisfies the threshold implication
whatever `NotAfter` its new certificate carries. -/
theorem x509_fresh_activate_imp_prepare (id : String) (now : Int) (m : X509CA) :
    x509CASlot.ShouldActivateNext { id := id, issuedAt := now, x509CA := some m } now = true →
    x509CASlot.ShouldPrepareNext { id := id, issuedAt := now, x509CA := some m } now = true := by
  simp only [x509CASlot.ShouldActivateNext, x509CASlot.ShouldPrepareNext, timeAfter,
    decide_eq_true_eq]
  exact fresh_activation_implies_preparation now (chainHead m).notAfter

theorem jwt_activate_imp_prepare_of_sane (s : jwtKeySlot) (now : Int)
    (h : ∀ k, s.jwtKey = some k → s.issuedAt ≤ k.notAfter) :
    s.ShouldActivateNext now = true → s.ShouldPrepareNext now = true := by
  intro hact
  rcases hsc : s.jwtKey with _ | k
  · simp [jwtKeySlot.ShouldPrepareNext, hsc]
  · simp only [jwtKeySlot.ShouldActivateNext, hsc, timeAfter, decide_eq_true_eq] at hact
    simp only [jwtKeySlot.ShouldPrepareNext, hsc, timeAfter, decide_eq_true_eq]
    have hle := preparation_le_activation s.issuedAt k.notAfter (h k hsc)
    omega

theorem jwt_fresh_activate_imp_prepare (id : String) (now : Int) (k : JWTKey) :
    jwtKeySlot.ShouldActivateNext { id := id, issuedAt := now, jwtKey := some k } now = true →
    jwtKeySlot.ShouldPrepareNext { id := id, issuedAt := now, jwtKey := some k } now = true := by
  simp only [jwtKeySlot.ShouldActivateNext, jwtKeySlot.ShouldPrepareNext, timeAfter,
    decide_eq_true_eq]
  exact fresh_activation_implies_preparation now k.notAfter

theorem rotateX509CAStep3_acts (now : Int) (cur next : x509CASlot)
    (acts : List (Option X509CA))
    (hacts : ∀ a ∈ acts, a ≠ none)
    (hnext : cur.ShouldActivateNext now = true → next.x509CA ≠ none) :
    ∀ a ∈ (rotateX509CAStep3 now cur next acts).activations, a ≠ none := by
  unfold rotateX509CAStep3
  split
  · rename_i hact
    intro a ha
    rcases List.mem_append.mp ha with hmem | hmem
    · exact hacts a hmem
    · rw [List.mem_singleton.mp hmem]
      exact hnext hact
  · exact hacts

theorem rotateX509CAStep23_acts (oNext : X509Prep) (now : Int) (cur next : x509CASlot)
    (acts : List (Option X509CA))
    (hacts : ∀ a ∈ acts, a ≠ none)
    (himp : cur.ShouldActivateNext now = true → cur.ShouldPrepareNext now = true) :
    ∀ a ∈ (rotateX509CAStep23 oNext now cur next acts).activations, a ≠ none := by
  unfold rotateX509CAStep23
  split
  · rcases hp : prepareX509CA oNext now next with ⟨next2, e⟩
    cases e
    · apply rotateX509CAStep3_acts now cur next2 acts hacts
      intro _
      unfold prepareX509CA at hp
      split at hp
      · injection hp with h1 h2
        rw [← h1]
        simp
      · injection hp with h1 h2
        exact absurd h2 (by decide)
    · exact hacts
  · rename_i hcond
    apply rotateX509CAStep3_acts now cur next acts hacts
    intro hact hnone
    apply hcond
    rw [x509CASlot.IsEmpty, hnone, himp hact]
    rfl

theorem rotateX509CA_acts (oCur oNext : X509Prep) (now : Int) (cur next : x509CASlot)
    (h : ∀ ca, cur.x509CA = some ca → cur.issuedAt ≤ (chainHead ca).notAfter) :
    ∀ a ∈ (rotateX509CA oCur oNext now cur next).activations, a ≠ none := by
  unfold rotateX509CA
  split
  · rcases hp : prepareX509CA oCur now cur with ⟨cur2, e⟩
    cases e
    · unfold prepareX509CA at hp
      split at hp
      · injection hp with h1 h2
        rw [← h1]
        apply rotateX509CAStep23_acts
        · intro a ha
          rw [List.mem_singleton.mp ha]
          simp
        · exact x509_fresh_activate_imp_prepare cur.id now _
      · injection hp with h1 h2
        exact absurd h2 (by decide)
    · intro a ha
      simp at ha
  · apply rotateX509CAStep23_acts oNext now cur next []
      (fun a ha => absurd ha (List.not_mem_nil a))
    exact x509_activate_imp_prepare_of_sane cur now h

theorem rotateJWTKeyStep3_acts (now : Int) (cur next : jwtKeySlot)
    (acts : List (Option JWTKey))
    (hacts : ∀ a ∈ acts, a ≠ none)
    (hnext : cur.ShouldActivateNext now = true → next.jwtKey ≠ none) :
    ∀ a ∈ (rotateJWTKeyStep3 now cur next acts).activations, a ≠ none := by
  unfold rotateJWTKeyStep3
  split
  · rename_i hact
    intro a ha
    rcases List.mem_append.mp ha with hmem | hmem
    · exact hacts a hmem
    · rw [List.mem_singleton.mp hmem]
      exact hnext hact
  · exact hacts

theorem rotateJWTKeyStep23_acts (oNext : JWTPrep) (cattl now : Int) (cur next : jwtKeySlot)
    (acts : List (Option JWTKey))
    (hacts : ∀ a ∈ acts, a ≠ none)
    (himp : cur.ShouldActivateNext now = true → cur.ShouldPrepareNext now = true) :
    ∀ a ∈ (rotateJWTKeyStep23 oNext cattl now cur next acts).activations, a ≠ none := by
  unfold rotateJWTKeyStep23
  split
  · rcases hp : prepareJWTKey oNext cattl now next with ⟨next2, e⟩
    cases e
    · apply rotateJWTKeyStep3_acts now cur next2 acts hacts
      intro _
      unfold prepareJWTKey at hp
      split at hp
      · injection hp with h1 h2
        rw [← h1]
        simp
      · injection hp with h1 h2
        exact absurd h2 (by decide)
    · exact hacts
  · rename_i hcond
    apply rotateJWTKeyStep3_acts now cur next acts hacts
    intro hact hnone
    apply hcond
    rw [jwtKeySlot.IsEmpty, hnone, himp hact]
    rfl

theorem rotateJWTKey_acts (oCur oNext : JWTPrep) (cattl now : Int) (cur next : jwtKeySlot)
    (h : ∀ k, cur.jwtKey = some k → cur.issuedAt ≤ k.notAfter) :
    ∀ a ∈ (rotateJWTKey oCur oNext cattl now cur next).activations, a ≠ none := by
  unfold rotateJWTKey
  split
  · rcases hp : prepareJWTKey oCur cattl now cur with ⟨cur2, e⟩
    cases e
    · unfold prepareJWTKey at hp
      split at hp
      · injection hp with h1 h2
        rw [← h1]
        apply rotateJWTKeyStep23_acts
        · intro a ha
          rw [List.mem_singleton.mp ha]
          simp
        · exact jwt_fresh_activate_imp_prepare cur.id now _
      · injection hp with h1 h2
        exact absurd h2 (by decide)
    · intro a ha
      simp at ha
  · apply rotateJWTKeyStep23_acts oNext cattl now cur next []
      (fun a ha => absurd ha (List.not_mem_nil a))
    exact jwt_activate_imp_prepare_of_sane cur now h

/-- C5 (amended): on a rotation tick every activation — bootstrap or
post-swap — reads non-empty slot material, provided the current slots'
material (when present) satisfies `issuedAt ≤ NotAfter`. When the current
X509 slot's `NotAfter` is earlier than its `issuedAt`, the activation step
can read an empty slot (see the counterexample). -/
theorem rotate_activations_nonempty (env : TickEnv) (now : Int) (st : ManagerState)
    (hx : ∀ ca, st.currentX509CA.x509CA = some ca →
      st.currentX509CA.issuedAt ≤ (chainHead ca).notAfter)
    (hj : ∀ k, st.currentJWTKey.jwtKey = some k →
      st.currentJWTKey.issuedAt ≤ k.notAfter) :
    (∀ a ∈ (rotate env now st).x509Activations, a ≠ none) ∧
    (∀ a ∈ (rotate env now st).jwtActivations, a ≠ none) := by
  constructor
  · simp only [rotate]
    exact rotateX509CA_acts _ _ now _ _ hx
  · simp only [rotate]
    exact rotateJWTKey_acts _ _ _ now _ _ hj

theorem rotate_activations_nonempty_witness :
    (∀ a ∈ (rotate c9Env2 0 coldState).x509Activations, a ≠ none) ∧
    (∀ a ∈ (rotate c9Env2 0 coldState).jwtActivations, a ≠ none) :=
  rotate_activations_nonempty c9Env2 0 coldState
    (fun ca hca => by simp [coldState, newX509CASlot] at hca)
    (fun k hk => by simp [coldState, newJWTKeySlot] at hk)

def c5Km : String → Option Nat := fun k =>
  if k = "x509-CA-A" then some 5 else if k = "JWT-Signer-A" then some 6 else none

def c5XEntry : X509CAEntry :=
  { slotId := "A", issuedAt := 12, chain := [{ notAfter := 0, publicKey := 5 }]
  , isIntermediate := false }

def c5JEntry : JWTKeyEntry :=
  { slotId := "A", issuedAt := 0, notAfter := 1000, kid := "kj", publicKey := 6 }

/-- C5 counterexample: journal recovery yields a current X509 slot with
`NotAfter = 0` earlier than `issuedAt = 12`; at `now = 4` the tick is past
the activation threshold (2) but not the preparation threshold (6), so the
still-empty next slot is swapped in and activated — the activation reads
`none`, a nil dereference of `x509CA.Chain[0]` in `activateX509CA`. -/
theorem rotate_activates_empty_slot_cex :
    (rotate c9Env2 4 (loadJournalState c5Km [c5XEntry] [c5JEntry])).x509Activations
      = [none] := by
  decide

end Spire
